import Mathlib

/-!
Shallow embedding of `src/match_id_checker_api.py` (Match ID Checker API).

Timestamps are modelled as integer seconds (`Time := Int`); a Python
`timedelta(days=d)` becomes `d * 86400` seconds.  The MongoDB collections are
modelled as a `Store` holding a lookup function for match records (the
`match_id` field carries a unique index) and the list of `UserProfile`
documents.  Redis is modelled as an association list of entries carrying an
absolute expiry instant, so that `setex key 3600 v` at time `now` yields an
entry readable exactly while `now' < now + 3600`.

The endpoint `check_match_id` is embedded as a pure function of the store, the
cache, the two query parameters and the current time.  Besides the HTTP-level
result it returns the cache left behind by the call and counters of the
collaborator operations performed (cache gets/sets, match-record reads,
user/policy reads), so that claims about which I/O a path performs are
statable.  The several `datetime.now()` calls inside one request are modelled
as a single instant `now`, and the dynamic Django-model fallback inside
`_get_cluster_from_user` is omitted: it is only reached when a user document
matched `clusters__cluster_name=cn` yet contains no cluster named `cn`, which
the query semantics make impossible.
-/

namespace MatchIdChecker

abbrev Time := Int

def SECONDS_PER_DAY : Time := 86400

/-- Embedded `ClusterDetails` document (the `cluster_price` float is
informational only, never read by the endpoint, and is omitted). -/
structure ClusterDetails where
  cluster_name : String
  timeline_days : Int := 30
  api_key : String
  match_id_type : String := "admin_generated"
  trial_period : Int := 0
deriving Repr, DecidableEq

/-- Embedded `UserProfile` document (`bank_details` is never read by the
endpoint and is omitted). -/
structure UserProfile where
  user_id : String
  email : String
  username : String
  clusters : List ClusterDetails
deriving Repr, DecidableEq

/-- Embedded `MatchId` document. -/
structure MatchId where
  match_id : String
  cluster_name : String
  created_on : Time
  last_paid_on : Option Time := none
  valid_till : Option Time := none
  is_trial : Bool := false
deriving Repr, DecidableEq

/-- The JSON dictionary produced by `serialize_match_id` and stored in Redis:
every field of the record except `_id`, with datetimes as ISO strings
(here: optional integer instants). -/
structure CacheData where
  match_id : String
  cluster_name : String
  created_on : Option Time
  last_paid_on : Option Time
  valid_till : Option Time
  is_trial : Bool
deriving Repr, DecidableEq

/-- `serialize_match_id`: `created_on` is a required field, so its guard
always takes the `some` branch. -/
def serialize_match_id (r : MatchId) : CacheData :=
  { match_id := r.match_id
    cluster_name := r.cluster_name
    created_on := some r.created_on
    last_paid_on := r.last_paid_on
    valid_till := r.valid_till
    is_trial := r.is_trial }

/-- `get_cache_key`: the Redis key is the literal prefix `match_id:` followed
by the api key, a colon, and the match id. -/
def get_cache_key (api_key : String) (match_id : String) : String :=
  "match_id:" ++ api_key ++ ":" ++ match_id

/-- The MongoDB side: match records by unique `match_id`, and the `users`
collection. -/
structure Store where
  match_ids : String → Option MatchId
  users : List UserProfile

/-- `_get_cluster_from_user`: `UserProfile.objects(clusters__cluster_name=cn)
.first()` is the first user owning a cluster named `cn`; the cluster is then
found inside that user's embedded list. -/
def get_cluster_from_user (st : Store) (cn : String) :
    Option UserProfile × Option ClusterDetails :=
  match st.users.find? (fun u => u.clusters.any (fun cl => cl.cluster_name == cn)) with
  | none => (none, none)
  | some u => (some u, u.clusters.find? (fun cl => cl.cluster_name == cn))

/-- A Redis entry: key, absolute expiry instant, value. -/
abbrev CacheEntry := String × Time × CacheData

abbrev Cache := List CacheEntry

/-- `redis_client.get`: the stored value, provided its TTL has not lapsed. -/
def cacheGet (c : Cache) (key : String) (now : Time) : Option CacheData :=
  match c.find? (fun e => e.1 == key) with
  | some (_, expiry, d) => if now < expiry then some d else none
  | none => none

/-- `redis_client.setex`: store the value under the key with the given TTL,
replacing any previous entry for that key. -/
def cacheSetex (c : Cache) (key : String) (ttl : Time) (d : CacheData)
    (now : Time) : Cache :=
  (key, now + ttl, d) :: c.filter (fun e => !(e.1 == key))

/-- The closed set of outcomes of the endpoint, one per HTTP status the
docstring enumerates (500 is unreachable in the pure embedding: the
collaborators are total functions here). -/
inductive CheckResult where
  | paidActive
  | trialActive
  | badRequest
  | keyInvalid
  | expired
  | recordNotFound
deriving Repr, DecidableEq

/-- The HTTP status code each outcome is surfaced as. -/
def httpStatus : CheckResult → Nat
  | .paidActive => 200
  | .trialActive => 201
  | .badRequest => 400
  | .keyInvalid => 404
  | .expired => 410
  | .recordNotFound => 422

/-- Counters of the collaborator calls one request performs. -/
structure Counts where
  cacheGets : Nat
  cacheSets : Nat
  recordReads : Nat
  policyReads : Nat
deriving Repr, DecidableEq

/-- Result of one request: outcome, the cache as left behind, and the
collaborator-call counters. -/
structure CheckOutcome where
  result : CheckResult
  cache : Cache
  counts : Counts
deriving Repr, DecidableEq

/-- Embedding of the `GET /check-match-id/` handler `check_match_id`. -/
def check_match_id (st : Store) (c : Cache) (api_key : String)
    (match_id : String) (now : Time) : CheckOutcome :=
  if api_key = "" ∨ match_id = "" then
    { result := .badRequest, cache := c, counts := ⟨0, 0, 0, 0⟩ }
  else
    match cacheGet c (get_cache_key api_key match_id) now with
    | some data =>
      match (get_cluster_from_user st data.cluster_name).2 with
      | none => { result := .keyInvalid, cache := c, counts := ⟨1, 0, 0, 1⟩ }
      | some cluster =>
        if cluster.api_key ≠ api_key then
          { result := .keyInvalid, cache := c, counts := ⟨1, 0, 0, 1⟩ }
        else
          let is_active : Bool :=
            match data.valid_till with
            | some v => decide (now < v)
            | none => false
          let in_trial : Bool :=
            match data.created_on with
            | some co =>
              data.is_trial && decide (0 < cluster.trial_period) &&
                decide (now ≤ co + cluster.trial_period * SECONDS_PER_DAY)
            | none => false
          if is_active then
            if data.is_trial && in_trial then
              { result := .trialActive, cache := c, counts := ⟨1, 0, 0, 1⟩ }
            else
              { result := .paidActive, cache := c, counts := ⟨1, 0, 0, 1⟩ }
          else
            { result := .expired, cache := c, counts := ⟨1, 0, 0, 1⟩ }
    | none =>
      match st.match_ids match_id with
      | none => { result := .recordNotFound, cache := c, counts := ⟨1, 0, 1, 0⟩ }
      | some rec =>
        match (get_cluster_from_user st rec.cluster_name).2 with
        | none => { result := .keyInvalid, cache := c, counts := ⟨1, 0, 1, 1⟩ }
        | some cluster =>
          if cluster.api_key ≠ api_key then
            { result := .keyInvalid, cache := c, counts := ⟨1, 0, 1, 1⟩ }
          else
            let is_active : Bool :=
              match rec.valid_till with
              | some v => decide (now < v)
              | none => false
            let in_trial : Bool :=
              rec.is_trial && decide (0 < cluster.trial_period) &&
                decide (now ≤ rec.created_on + cluster.trial_period * SECONDS_PER_DAY)
            let c2 := cacheSetex c (get_cache_key api_key match_id) 3600
              (serialize_match_id rec) now
            if is_active then
              if rec.is_trial && in_trial then
                { result := .trialActive, cache := c2, counts := ⟨1, 1, 1, 1⟩ }
              else
                { result := .paidActive, cache := c2, counts := ⟨1, 1, 1, 1⟩ }
            else
              { result := .expired, cache := c2, counts := ⟨1, 1, 1, 1⟩ }

/-! Branch-equation lemmas: one per control-flow leaf of `check_match_id`,
used to drive the case analyses below. -/

theorem check_empty_eq (st : Store) (c : Cache) (a m : String) (t : Time)
    (h : a = "" ∨ m = "") :
    check_match_id st c a m t = ⟨.badRequest, c, ⟨0, 0, 0, 0⟩⟩ := by
  unfold check_match_id
  rw [if_pos h]

theorem check_hit_nocluster (st : Store) (c : Cache) (a m : String) (t : Time)
    (d : CacheData)
    (hne : ¬(a = "" ∨ m = ""))
    (hhit : cacheGet c (get_cache_key a m) t = some d)
    (hcl : (get_cluster_from_user st d.cluster_name).2 = none) :
    check_match_id st c a m t = ⟨.keyInvalid, c, ⟨1, 0, 0, 1⟩⟩ := by
  unfold check_match_id
  rw [if_neg hne, hhit]
  simp only [hcl]

theorem check_hit_badkey (st : Store) (c : Cache) (a m : String) (t : Time)
    (d : CacheData) (cluster : ClusterDetails)
    (hne : ¬(a = "" ∨ m = ""))
    (hhit : cacheGet c (get_cache_key a m) t = some d)
    (hcl : (get_cluster_from_user st d.cluster_name).2 = some cluster)
    (hk : cluster.api_key ≠ a) :
    check_match_id st c a m t = ⟨.keyInvalid, c, ⟨1, 0, 0, 1⟩⟩ := by
  unfold check_match_id
  rw [if_neg hne, hhit]
  simp only [hcl]
  rw [if_pos hk]

theorem check_hit_found (st : Store) (c : Cache) (a m : String) (t : Time)
    (d : CacheData) (cluster : ClusterDetails)
    (hne : ¬(a = "" ∨ m = ""))
    (hhit : cacheGet c (get_cache_key a m) t = some d)
    (hcl : (get_cluster_from_user st d.cluster_name).2 = some cluster)
    (hk : cluster.api_key = a) :
    check_match_id st c a m t =
      (let is_active : Bool := match d.valid_till with
        | some v => decide (t < v)
        | none => false
      let in_trial : Bool := match d.created_on with
        | some co => d.is_trial && decide (0 < cluster.trial_period) &&
            decide (t ≤ co + cluster.trial_period * SECONDS_PER_DAY)
        | none => false
      if is_active then
        if d.is_trial && in_trial then ⟨.trialActive, c, ⟨1, 0, 0, 1⟩⟩
        else ⟨.paidActive, c, ⟨1, 0, 0, 1⟩⟩
      else ⟨.expired, c, ⟨1, 0, 0, 1⟩⟩) := by
  unfold check_match_id
  rw [if_neg hne, hhit]
  simp only [hcl]
  rw [if_neg (by simp [hk])]

theorem check_miss_norec (st : Store) (c : Cache) (a m : String) (t : Time)
    (hne : ¬(a = "" ∨ m = ""))
    (hmiss : cacheGet c (get_cache_key a m) t = none)
    (hrec : st.match_ids m = none) :
    check_match_id st c a m t = ⟨.recordNotFound, c, ⟨1, 0, 1, 0⟩⟩ := by
  unfold check_match_id
  rw [if_neg hne, hmiss]
  simp only [hrec]

theorem check_miss_nocluster (st : Store) (c : Cache) (a m : String) (t : Time)
    (rec : MatchId)
    (hne : ¬(a = "" ∨ m = ""))
    (hmiss : cacheGet c (get_cache_key a m) t = none)
    (hrec : st.match_ids m = some rec)
    (hcl : (get_cluster_from_user st rec.cluster_name).2 = none) :
    check_match_id st c a m t = ⟨.keyInvalid, c, ⟨1, 0, 1, 1⟩⟩ := by
  unfold check_match_id
  rw [if_neg hne, hmiss]
  simp only [hrec, hcl]

theorem check_miss_badkey (st : Store) (c : Cache) (a m : String) (t : Time)
    (rec : MatchId) (cluster : ClusterDetails)
    (hne : ¬(a = "" ∨ m = ""))
    (hmiss : cacheGet c (get_cache_key a m) t = none)
    (hrec : st.match_ids m = some rec)
    (hcl : (get_cluster_from_user st rec.cluster_name).2 = some cluster)
    (hk : cluster.api_key ≠ a) :
    check_match_id st c a m t = ⟨.keyInvalid, c, ⟨1, 0, 1, 1⟩⟩ := by
  unfold check_match_id
  rw [if_neg hne, hmiss]
  simp only [hrec, hcl]
  rw [if_pos hk]

theorem check_miss_found (st : Store) (c : Cache) (a m : String) (t : Time)
    (rec : MatchId) (cluster : ClusterDetails)
    (hne : ¬(a = "" ∨ m = ""))
    (hmiss : cacheGet c (get_cache_key a m) t = none)
    (hrec : st.match_ids m = some rec)
    (hcl : (get_cluster_from_user st rec.cluster_name).2 = some cluster)
    (hk : cluster.api_key = a) :
    check_match_id st c a m t =
      (let is_active : Bool := match rec.valid_till with
        | some v => decide (t < v)
        | none => false
      let in_trial : Bool := rec.is_trial && decide (0 < cluster.trial_period) &&
        decide (t ≤ rec.created_on + cluster.trial_period * SECONDS_PER_DAY)
      let c2 := cacheSetex c (get_cache_key a m) 3600 (serialize_match_id rec) t
      if is_active then
        if rec.is_trial && in_trial then ⟨.trialActive, c2, ⟨1, 1, 1, 1⟩⟩
        else ⟨.paidActive, c2, ⟨1, 1, 1, 1⟩⟩
      else ⟨.expired, c2, ⟨1, 1, 1, 1⟩⟩) := by
  unfold check_match_id
  rw [if_neg hne, hmiss]
  simp only [hrec, hcl]
  rw [if_neg (by simp [hk])]

theorem cacheGet_setex_self (c : Cache) (key : String) (ttl : Time) (d : CacheData)
    (now t2 : Time) (h : t2 < now + ttl) :
    cacheGet (cacheSetex c key ttl d now) key t2 = some d := by
  unfold cacheGet cacheSetex
  rw [List.find?_cons_of_pos]
  · simp [h]
  · simp

/-- Composite facts about the authorised cache-hit leaf: its possible results,
and that it leaves the cache untouched with exactly one cache get and one
user/policy read. -/
theorem check_hit_found_parts (st : Store) (c : Cache) (a m : String) (t : Time)
    (d : CacheData) (cluster : ClusterDetails)
    (hne : ¬(a = "" ∨ m = ""))
    (hhit : cacheGet c (get_cache_key a m) t = some d)
    (hcl : (get_cluster_from_user st d.cluster_name).2 = some cluster)
    (hk : cluster.api_key = a) :
    ((check_match_id st c a m t).result = .trialActive ∨
     (check_match_id st c a m t).result = .paidActive ∨
     (check_match_id st c a m t).result = .expired) ∧
    (check_match_id st c a m t).cache = c ∧
    (check_match_id st c a m t).counts = ⟨1, 0, 0, 1⟩ := by
  rw [check_hit_found st c a m t d cluster hne hhit hcl hk]
  dsimp only
  split
  · split
    · exact ⟨Or.inl rfl, rfl, rfl⟩
    · exact ⟨Or.inr (Or.inl rfl), rfl, rfl⟩
  · exact ⟨Or.inr (Or.inr rfl), rfl, rfl⟩

/-- Composite facts about the authorised cache-miss leaf: its possible results,
and that it writes the serialized record into the cache with the full TTL. -/
theorem check_miss_found_parts (st : Store) (c : Cache) (a m : String) (t : Time)
    (rec : MatchId) (cluster : ClusterDetails)
    (hne : ¬(a = "" ∨ m = ""))
    (hmiss : cacheGet c (get_cache_key a m) t = none)
    (hrec : st.match_ids m = some rec)
    (hcl : (get_cluster_from_user st rec.cluster_name).2 = some cluster)
    (hk : cluster.api_key = a) :
    ((check_match_id st c a m t).result = .trialActive ∨
     (check_match_id st c a m t).result = .paidActive ∨
     (check_match_id st c a m t).result = .expired) ∧
    (check_match_id st c a m t).cache =
      cacheSetex c (get_cache_key a m) 3600 (serialize_match_id rec) t ∧
    (check_match_id st c a m t).counts = ⟨1, 1, 1, 1⟩ := by
  rw [check_miss_found st c a m t rec cluster hne hmiss hrec hcl hk]
  dsimp only
  split
  · split
    · exact ⟨Or.inl rfl, rfl, rfl⟩
    · exact ⟨Or.inr (Or.inl rfl), rfl, rfl⟩
  · exact ⟨Or.inr (Or.inr rfl), rfl, rfl⟩

/-! Concrete fixtures used to evaluate the theorems on closed inputs. -/

def clPaid : ClusterDetails := { cluster_name := "c1", api_key := "k1" }

def userPaid : UserProfile :=
  { user_id := "u1", email := "e1", username := "n1", clusters := [clPaid] }

def recPaid : MatchId :=
  { match_id := "m1", cluster_name := "c1", created_on := 0, valid_till := some 100 }

def stPaid : Store :=
  { match_ids := fun x => if x = "m1" then some recPaid else none,
    users := [userPaid] }

def clTrial : ClusterDetails := { cluster_name := "c2", api_key := "k2", trial_period := 7 }

def userTrial : UserProfile :=
  { user_id := "u2", email := "e2", username := "n2", clusters := [clTrial] }

def recTrial : MatchId :=
  { match_id := "m2", cluster_name := "c2", created_on := 0,
    valid_till := some 432000, is_trial := true }

def stTrial : Store :=
  { match_ids := fun x => if x = "m2" then some recTrial else none,
    users := [userTrial] }

def dStale : CacheData := serialize_match_id recPaid

def cStale : Cache := [(get_cache_key "k1" "m1", 3600, dStale)]

def recExt : MatchId :=
  { match_id := "m1", cluster_name := "c1", created_on := 0, valid_till := some 10000 }

def stExt : Store :=
  { match_ids := fun x => if x = "m1" then some recExt else none,
    users := [userPaid] }

def cWrong : Cache := [(get_cache_key "k9" "m1", 3600, dStale)]

/-- Claim C1 fails: the first call caches the record and returns Paid Active;
a second call 200 seconds later (well within the 3600-second TTL, with the
store unchanged) is a cache hit yet returns Expired — a different Status —
and still performs one user/policy read on the authoritative store. -/
theorem C1_counterexample :
    (check_match_id stPaid [] "k1" "m1" 0).result = .paidActive ∧
    (200 : Time) < 3600 ∧
    (check_match_id stPaid ((check_match_id stPaid [] "k1" "m1" 0).cache) "k1" "m1"
      200).result = .expired ∧
    (check_match_id stPaid ((check_match_id stPaid [] "k1" "m1" 0).cache) "k1" "m1"
      200).result ≠ (check_match_id stPaid [] "k1" "m1" 0).result ∧
    (check_match_id stPaid ((check_match_id stPaid [] "k1" "m1" 0).cache) "k1" "m1"
      200).counts.policyReads = 1 := by decide

/-- Claim C1 (amended): a cache hit that passes the policy check performs no
match-record read and no cache write (it does perform one user/policy read);
and two calls within the TTL with no record change, the first a miss whose
result is positive, return the same Status — with the match record read
exactly once, on the first call — provided the paid window is still open at
the second call and the trial-window test is unchanged between the calls. -/
theorem C1_positive_cache_trust (st : Store) (c : Cache) (a m : String)
    (t1 t2 : Time) (rec : MatchId) (cluster : ClusterDetails) (v : Time) :
    (∀ d cl, ¬(a = "" ∨ m = "") →
      cacheGet c (get_cache_key a m) t1 = some d →
      (get_cluster_from_user st d.cluster_name).2 = some cl →
      cl.api_key = a →
      ((check_match_id st c a m t1).result = .paidActive ∨
       (check_match_id st c a m t1).result = .trialActive) →
      (check_match_id st c a m t1).counts.recordReads = 0 ∧
      (check_match_id st c a m t1).counts.cacheSets = 0 ∧
      (check_match_id st c a m t1).counts.policyReads = 1 ∧
      (check_match_id st c a m t1).cache = c) ∧
    (¬(a = "" ∨ m = "") →
      cacheGet c (get_cache_key a m) t1 = none →
      st.match_ids m = some rec →
      (get_cluster_from_user st rec.cluster_name).2 = some cluster →
      cluster.api_key = a →
      rec.valid_till = some v → t1 < v → t2 < v → t2 < t1 + 3600 →
      (rec.is_trial = true → 0 < cluster.trial_period →
        (t1 ≤ rec.created_on + cluster.trial_period * SECONDS_PER_DAY ↔
         t2 ≤ rec.created_on + cluster.trial_period * SECONDS_PER_DAY)) →
      ((check_match_id st c a m t1).result = .paidActive ∨
       (check_match_id st c a m t1).result = .trialActive) ∧
      (check_match_id st ((check_match_id st c a m t1).cache) a m t2).result =
        (check_match_id st c a m t1).result ∧
      (check_match_id st c a m t1).counts.recordReads = 1 ∧
      (check_match_id st ((check_match_id st c a m t1).cache) a m t2).counts.recordReads
        = 0) := by
  constructor
  · intro d cl hne hhit hcl hk hpos
    obtain ⟨-, hcache, hcounts⟩ := check_hit_found_parts st c a m t1 d cl hne hhit hcl hk
    rw [hcounts]
    exact ⟨rfl, rfl, rfl, hcache⟩
  · intro hne hmiss hrec hcl hk hv h1 h2 httl htw
    have hbb : (rec.is_trial && (rec.is_trial && decide (0 < cluster.trial_period) &&
        decide (t1 ≤ rec.created_on + cluster.trial_period * SECONDS_PER_DAY))) =
        (rec.is_trial && (rec.is_trial && decide (0 < cluster.trial_period) &&
        decide (t2 ≤ rec.created_on + cluster.trial_period * SECONDS_PER_DAY))) := by
      cases hit : rec.is_trial with
      | false => simp
      | true =>
        by_cases hp : 0 < cluster.trial_period
        · rw [decide_eq_decide.mpr (htw hit hp)]
        · simp [hp]
    have hget2 : cacheGet (cacheSetex c (get_cache_key a m) 3600
        (serialize_match_id rec) t1) (get_cache_key a m) t2 =
        some (serialize_match_id rec) :=
      cacheGet_setex_self c (get_cache_key a m) 3600 (serialize_match_id rec) t1 t2 httl
    have hcl2 : (get_cluster_from_user st
        (serialize_match_id rec).cluster_name).2 = some cluster := hcl
    cases hb : (rec.is_trial && (rec.is_trial && decide (0 < cluster.trial_period) &&
        decide (t1 ≤ rec.created_on + cluster.trial_period * SECONDS_PER_DAY))) with
    | true =>
      have e1 : check_match_id st c a m t1 =
          ⟨.trialActive, cacheSetex c (get_cache_key a m) 3600 (serialize_match_id rec) t1,
            ⟨1, 1, 1, 1⟩⟩ := by
        rw [check_miss_found st c a m t1 rec cluster hne hmiss hrec hcl hk]
        dsimp only
        rw [hv]
        dsimp only
        rw [if_pos (decide_eq_true h1), if_pos hb]
      have e2 : check_match_id st (cacheSetex c (get_cache_key a m) 3600
          (serialize_match_id rec) t1) a m t2 =
          ⟨.trialActive, cacheSetex c (get_cache_key a m) 3600 (serialize_match_id rec) t1,
            ⟨1, 0, 0, 1⟩⟩ := by
        rw [check_hit_found st _ a m t2 (serialize_match_id rec) cluster hne hget2 hcl2 hk]
        dsimp only [serialize_match_id]
        rw [hv]
        dsimp only
        rw [if_pos (decide_eq_true h2), if_pos (hbb.symm.trans hb)]
      rw [e1]
      dsimp only
      rw [e2]
      exact ⟨Or.inr rfl, rfl, rfl, rfl⟩
    | false =>
      have e1 : check_match_id st c a m t1 =
          ⟨.paidActive, cacheSetex c (get_cache_key a m) 3600 (serialize_match_id rec) t1,
            ⟨1, 1, 1, 1⟩⟩ := by
        rw [check_miss_found st c a m t1 rec cluster hne hmiss hrec hcl hk]
        dsimp only
        rw [hv]
        dsimp only
        rw [if_pos (decide_eq_true h1), if_neg (by simp [hb])]
      have e2 : check_match_id st (cacheSetex c (get_cache_key a m) 3600
          (serialize_match_id rec) t1) a m t2 =
          ⟨.paidActive, cacheSetex c (get_cache_key a m) 3600 (serialize_match_id rec) t1,
            ⟨1, 0, 0, 1⟩⟩ := by
        rw [check_hit_found st _ a m t2 (serialize_match_id rec) cluster hne hget2 hcl2 hk]
        dsimp only [serialize_match_id]
        rw [hv]
        dsimp only
        rw [if_pos (decide_eq_true h2), if_neg (by simp [hbb.symm.trans hb])]
      rw [e1]
      dsimp only
      rw [e2]
      exact ⟨Or.inl rfl, rfl, rfl, rfl⟩

/-- Witness for C1: both parts evaluated at a concrete paid record with the
second call 50 seconds after the first. -/
theorem C1_witness :
    cacheGet ([] : Cache) (get_cache_key "k1" "m1") 0 = none ∧
    stPaid.match_ids "m1" = some recPaid ∧
    (((check_match_id stPaid [] "k1" "m1" 0).result = .paidActive ∨
      (check_match_id stPaid [] "k1" "m1" 0).result = .trialActive) ∧
     (check_match_id stPaid ((check_match_id stPaid [] "k1" "m1" 0).cache) "k1" "m1"
        50).result = (check_match_id stPaid [] "k1" "m1" 0).result ∧
     (check_match_id stPaid [] "k1" "m1" 0).counts.recordReads = 1 ∧
     (check_match_id stPaid ((check_match_id stPaid [] "k1" "m1" 0).cache) "k1" "m1"
        50).counts.recordReads = 0) :=
  ⟨rfl, by decide,
    (C1_positive_cache_trust stPaid [] "k1" "m1" 0 50 recPaid clPaid 100).2 (by decide)
      (by decide) (by decide) (by decide) (by decide) (by decide) (by decide) (by decide)
      (by decide) (by decide)⟩

/-- Claim C2 fails: with a cached entry whose valid-until lies in the past but
an underlying record whose valid-until was extended to 10000 (so a fresh
resolution at time 200 would be Paid Active), the call returns Expired,
performs no match-record read, and leaves the cache entry unchanged. -/
theorem C2_counterexample :
    cacheGet cStale (get_cache_key "k1" "m1") 200 = some dStale ∧
    dStale.valid_till = some 100 ∧
    stExt.match_ids "m1" = some recExt ∧
    recExt.valid_till = some 10000 ∧ (200 : Time) < 10000 ∧
    (check_match_id stExt cStale "k1" "m1" 200).result = .expired ∧
    (check_match_id stExt cStale "k1" "m1" 200).result ≠ .paidActive ∧
    (check_match_id stExt cStale "k1" "m1" 200).counts.recordReads = 0 ∧
    (check_match_id stExt cStale "k1" "m1" 200).cache = cStale := by decide

/-- Claim C2 (amended): on a cache hit whose cached timestamps resolve to the
negative state at the current time, the code performs no reconciliation: it
returns Expired (HTTP 410) straight from the cached timestamps, reads no
match record, writes nothing, and leaves the cache unchanged — so a record
extended after caching keeps yielding Expired until the TTL lapses. -/
theorem C2_stale_hit (st : Store) (c : Cache) (a m : String) (t : Time)
    (d : CacheData) (cluster : ClusterDetails)
    (hne : ¬(a = "" ∨ m = ""))
    (hhit : cacheGet c (get_cache_key a m) t = some d)
    (hcl : (get_cluster_from_user st d.cluster_name).2 = some cluster)
    (hk : cluster.api_key = a)
    (hstale : d.valid_till = none ∨ ∃ v, d.valid_till = some v ∧ v ≤ t) :
    (check_match_id st c a m t).result = .expired ∧
    httpStatus (check_match_id st c a m t).result = 410 ∧
    (check_match_id st c a m t).counts.recordReads = 0 ∧
    (check_match_id st c a m t).counts.cacheSets = 0 ∧
    (check_match_id st c a m t).cache = c := by
  have hact : (match d.valid_till with
      | some v => decide (t < v)
      | none => false) = false := by
    rcases hstale with hv | ⟨v, hv, hle⟩
    · rw [hv]
    · rw [hv]
      simp only [decide_eq_false_iff_not, not_lt]
      exact hle
  rw [check_hit_found st c a m t d cluster hne hhit hcl hk]
  dsimp only
  rw [hact]
  exact ⟨rfl, rfl, rfl, rfl, rfl⟩

/-- Witness for C2 (amended), evaluated at the extended-record fixture. -/
theorem C2_witness :
    cacheGet cStale (get_cache_key "k1" "m1") 200 = some dStale ∧
    ((check_match_id stExt cStale "k1" "m1" 200).result = .expired ∧
     httpStatus (check_match_id stExt cStale "k1" "m1" 200).result = 410 ∧
     (check_match_id stExt cStale "k1" "m1" 200).counts.recordReads = 0 ∧
     (check_match_id stExt cStale "k1" "m1" 200).counts.cacheSets = 0 ∧
     (check_match_id stExt cStale "k1" "m1" 200).cache = cStale) :=
  ⟨by decide,
    C2_stale_hit stExt cStale "k1" "m1" 200 dStale clPaid (by decide) (by decide)
      (by decide) (by decide) (Or.inr ⟨100, by decide, by decide⟩)⟩

/-- Claim C3 fails: with an access key owned by no cluster and an unknown
match identifier, the cache-miss path returns Record Not Found (the record
lookup runs first), not Key Invalid as claimed. -/
theorem C3_counterexample :
    (∀ u ∈ stPaid.users, ∀ cl ∈ u.clusters, cl.api_key ≠ "k9") ∧
    stPaid.match_ids "zz" = none ∧
    (check_match_id stPaid [] "k9" "zz" 0).result = .recordNotFound ∧
    (check_match_id stPaid [] "k9" "zz" 0).result ≠ .keyInvalid := by decide

/-- Claim C3 (amended): on a cache miss the match record is looked up first —
an absent record yields Record Not Found (HTTP 422) with no policy lookup —
and only for an existing record is the policy resolved from the record's
owning cluster, a missing or mismatching policy yielding Key Invalid
(HTTP 404). Neither outcome writes to the cache. -/
theorem C3_record_first (st : Store) (c : Cache) (a m : String) (t : Time)
    (hne : ¬(a = "" ∨ m = ""))
    (hmiss : cacheGet c (get_cache_key a m) t = none) :
    (st.match_ids m = none →
      (check_match_id st c a m t).result = .recordNotFound ∧
      httpStatus (check_match_id st c a m t).result = 422 ∧
      (check_match_id st c a m t).counts.policyReads = 0 ∧
      (check_match_id st c a m t).cache = c) ∧
    (∀ rec, st.match_ids m = some rec →
      ((get_cluster_from_user st rec.cluster_name).2 = none ∨
        ∃ cl, (get_cluster_from_user st rec.cluster_name).2 = some cl ∧ cl.api_key ≠ a) →
      (check_match_id st c a m t).result = .keyInvalid ∧
      httpStatus (check_match_id st c a m t).result = 404 ∧
      (check_match_id st c a m t).counts.recordReads = 1 ∧
      (check_match_id st c a m t).cache = c) := by
  constructor
  · intro hrec
    rw [check_miss_norec st c a m t hne hmiss hrec]
    exact ⟨rfl, rfl, rfl, rfl⟩
  · rintro rec hrec (hcl | ⟨cl, hcl, hk⟩)
    · rw [check_miss_nocluster st c a m t rec hne hmiss hrec hcl]
      exact ⟨rfl, rfl, rfl, rfl⟩
    · rw [check_miss_badkey st c a m t rec cl hne hmiss hrec hcl hk]
      exact ⟨rfl, rfl, rfl, rfl⟩

/-- Witness for C3 (amended), evaluated at an unknown match identifier. -/
theorem C3_witness :
    stPaid.match_ids "zz" = none ∧
    ((check_match_id stPaid [] "k9" "zz" 0).result = .recordNotFound ∧
     httpStatus (check_match_id stPaid [] "k9" "zz" 0).result = 422 ∧
     (check_match_id stPaid [] "k9" "zz" 0).counts.policyReads = 0 ∧
     (check_match_id stPaid [] "k9" "zz" 0).cache = []) :=
  ⟨by decide,
    (C3_record_first stPaid [] "k9" "zz" 0 (by decide) (by decide)).1 (by decide)⟩

/-- Claim C4: when both the paid window (valid-until in the future) and the
trial window (trial flag set, positive trial period, now at or before
creation plus the trial period) are open on the cache-miss path, the call
returns Trial Active, surfaced as HTTP 201 — trial takes precedence. -/
theorem C4_trial_precedence (st : Store) (c : Cache) (a m : String) (t : Time)
    (rec : MatchId) (cluster : ClusterDetails) (v : Time)
    (hne : ¬(a = "" ∨ m = ""))
    (hmiss : cacheGet c (get_cache_key a m) t = none)
    (hrec : st.match_ids m = some rec)
    (hcl : (get_cluster_from_user st rec.cluster_name).2 = some cluster)
    (hk : cluster.api_key = a)
    (hv : rec.valid_till = some v) (hpaid : t < v)
    (htrial : rec.is_trial = true) (hper : 0 < cluster.trial_period)
    (hwin : t ≤ rec.created_on + cluster.trial_period * SECONDS_PER_DAY) :
    (check_match_id st c a m t).result = .trialActive ∧
    httpStatus (check_match_id st c a m t).result = 201 := by
  have hb : (rec.is_trial && (rec.is_trial && decide (0 < cluster.trial_period) &&
      decide (t ≤ rec.created_on + cluster.trial_period * SECONDS_PER_DAY))) = true := by
    simp [htrial, hper, hwin]
  rw [check_miss_found st c a m t rec cluster hne hmiss hrec hcl hk]
  dsimp only
  rw [hv]
  dsimp only
  rw [if_pos (decide_eq_true hpaid), if_pos hb]
  exact ⟨rfl, rfl⟩

/-- Witness for C4: a record two days into a seven-day trial with five days
of paid validity left resolves to Trial Active / HTTP 201. -/
theorem C4_witness :
    stTrial.match_ids "m2" = some recTrial ∧
    recTrial.valid_till = some 432000 ∧ (172800 : Time) < 432000 ∧
    recTrial.is_trial = true ∧ (0 : Int) < clTrial.trial_period ∧
    (172800 : Time) ≤ recTrial.created_on + clTrial.trial_period * SECONDS_PER_DAY ∧
    ((check_match_id stTrial [] "k2" "m2" 172800).result = .trialActive ∧
     httpStatus (check_match_id stTrial [] "k2" "m2" 172800).result = 201) :=
  ⟨by decide, by decide, by decide, by decide, by decide, by decide,
    C4_trial_precedence stTrial [] "k2" "m2" 172800 recTrial clTrial 432000
      (by decide) (by decide) (by decide) (by decide) (by decide) (by decide)
      (by decide) (by decide) (by decide) (by decide)⟩

/-- Claim C5: on the cache-miss path, a record with valid-until in the future
that is not in an open trial window resolves to Paid Active (HTTP 200); a
record with valid-until absent, or past both the paid and trial windows,
resolves to Expired (HTTP 410). -/
theorem C5_paid_and_expired (st : Store) (c : Cache) (a m : String) (t : Time)
    (rec : MatchId) (cluster : ClusterDetails)
    (hne : ¬(a = "" ∨ m = ""))
    (hmiss : cacheGet c (get_cache_key a m) t = none)
    (hrec : st.match_ids m = some rec)
    (hcl : (get_cluster_from_user st rec.cluster_name).2 = some cluster)
    (hk : cluster.api_key = a) :
    ((∃ v, rec.valid_till = some v ∧ t < v) →
      ¬(rec.is_trial = true ∧ 0 < cluster.trial_period ∧
        t ≤ rec.created_on + cluster.trial_period * SECONDS_PER_DAY) →
      (check_match_id st c a m t).result = .paidActive ∧
      httpStatus (check_match_id st c a m t).result = 200) ∧
    ((rec.valid_till = none ∨
      ((∃ v, rec.valid_till = some v ∧ v ≤ t) ∧
        ¬(rec.is_trial = true ∧ 0 < cluster.trial_period ∧
          t ≤ rec.created_on + cluster.trial_period * SECONDS_PER_DAY))) →
      (check_match_id st c a m t).result = .expired ∧
      httpStatus (check_match_id st c a m t).result = 410) := by
  constructor
  · rintro ⟨v, hv, hlt⟩ hnt
    have hb : ¬((rec.is_trial && (rec.is_trial && decide (0 < cluster.trial_period) &&
        decide (t ≤ rec.created_on + cluster.trial_period * SECONDS_PER_DAY))) = true) := by
      simp only [Bool.and_eq_true, decide_eq_true_eq]
      rintro ⟨hit, ⟨hit2, hp⟩, hw⟩
      exact hnt ⟨hit, hp, hw⟩
    rw [check_miss_found st c a m t rec cluster hne hmiss hrec hcl hk]
    dsimp only
    rw [hv]
    dsimp only
    rw [if_pos (decide_eq_true hlt), if_neg hb]
    exact ⟨rfl, rfl⟩
  · rintro (hv | ⟨⟨v, hv, hge⟩, -⟩)
    · rw [check_miss_found st c a m t rec cluster hne hmiss hrec hcl hk]
      dsimp only
      rw [hv]
      dsimp only
      rw [if_neg (by simp)]
      exact ⟨rfl, rfl⟩
    · rw [check_miss_found st c a m t rec cluster hne hmiss hrec hcl hk]
      dsimp only
      rw [hv]
      dsimp only
      rw [if_neg (by simpa using not_lt.mpr hge)]
      exact ⟨rfl, rfl⟩

/-- Witness for C5: a future valid-until with no trial flag resolves to
Paid Active / HTTP 200. -/
theorem C5_witness :
    (∃ v, recPaid.valid_till = some v ∧ (0 : Time) < v) ∧
    ¬(recPaid.is_trial = true ∧ 0 < clPaid.trial_period ∧
      (0 : Time) ≤ recPaid.created_on + clPaid.trial_period * SECONDS_PER_DAY) ∧
    ((check_match_id stPaid [] "k1" "m1" 0).result = .paidActive ∧
     httpStatus (check_match_id stPaid [] "k1" "m1" 0).result = 200) :=
  ⟨⟨100, by decide, by decide⟩, by decide,
    (C5_paid_and_expired stPaid [] "k1" "m1" 0 recPaid clPaid (by decide) (by decide)
      (by decide) (by decide) (by decide)).1 ⟨100, by decide, by decide⟩ (by decide)⟩

/-- Claim C6: an empty access key or match identifier fails immediately with
Bad Request (HTTP 400), leaving the cache untouched and performing no cache
or store operation at all. -/
theorem C6_empty_input (st : Store) (c : Cache) (a m : String) (t : Time)
    (h : a = "" ∨ m = "") :
    (check_match_id st c a m t).result = .badRequest ∧
    httpStatus (check_match_id st c a m t).result = 400 ∧
    (check_match_id st c a m t).cache = c ∧
    (check_match_id st c a m t).counts = ⟨0, 0, 0, 0⟩ := by
  rw [check_empty_eq st c a m t h]
  exact ⟨rfl, rfl, rfl, rfl⟩

/-- Witness for C6: the empty access key. -/
theorem C6_witness :
    ("" = "" ∨ "m1" = "") ∧
    ((check_match_id stPaid [] "" "m1" 0).result = .badRequest ∧
     httpStatus (check_match_id stPaid [] "" "m1" 0).result = 400 ∧
     (check_match_id stPaid [] "" "m1" 0).cache = [] ∧
     (check_match_id stPaid [] "" "m1" 0).counts = ⟨0, 0, 0, 0⟩) :=
  ⟨Or.inl rfl, C6_empty_input stPaid [] "" "m1" 0 (Or.inl rfl)⟩

/-- Claim C7: Key Invalid and Record Not Found outcomes never write to the
cache, and two consecutive calls for an unknown match identifier each perform
one match-record read against the authoritative store. -/
theorem C7_negatives_not_cached (st : Store) (c : Cache) (a m : String) (t t2 : Time) :
    (((check_match_id st c a m t).result = .keyInvalid ∨
      (check_match_id st c a m t).result = .recordNotFound) →
      (check_match_id st c a m t).cache = c ∧
      (check_match_id st c a m t).counts.cacheSets = 0) ∧
    (¬(a = "" ∨ m = "") → st.match_ids m = none →
      cacheGet c (get_cache_key a m) t = none →
      cacheGet c (get_cache_key a m) t2 = none →
      (check_match_id st c a m t).result = .recordNotFound ∧
      (check_match_id st c a m t).counts.recordReads = 1 ∧
      (check_match_id st ((check_match_id st c a m t).cache) a m t2).result =
        .recordNotFound ∧
      (check_match_id st ((check_match_id st c a m t).cache) a m t2).counts.recordReads
        = 1) := by
  constructor
  · intro h
    by_cases hne : a = "" ∨ m = ""
    · rw [check_empty_eq st c a m t hne]
      exact ⟨rfl, rfl⟩
    · cases hget : cacheGet c (get_cache_key a m) t with
      | some d =>
        cases hcl : (get_cluster_from_user st d.cluster_name).2 with
        | none =>
          rw [check_hit_nocluster st c a m t d hne hget hcl]
          exact ⟨rfl, rfl⟩
        | some cluster =>
          by_cases hk : cluster.api_key = a
          · obtain ⟨-, hcache, hcounts⟩ :=
              check_hit_found_parts st c a m t d cluster hne hget hcl hk
            exact ⟨hcache, by rw [hcounts]⟩
          · rw [check_hit_badkey st c a m t d cluster hne hget hcl hk]
            exact ⟨rfl, rfl⟩
      | none =>
        cases hrec : st.match_ids m with
        | none =>
          rw [check_miss_norec st c a m t hne hget hrec]
          exact ⟨rfl, rfl⟩
        | some rec =>
          cases hcl : (get_cluster_from_user st rec.cluster_name).2 with
          | none =>
            rw [check_miss_nocluster st c a m t rec hne hget hrec hcl]
            exact ⟨rfl, rfl⟩
          | some cluster =>
            by_cases hk : cluster.api_key = a
            · obtain ⟨hres, -, -⟩ :=
                check_miss_found_parts st c a m t rec cluster hne hget hrec hcl hk
              rcases hres with h1 | h1 | h1 <;> rw [h1] at h <;> simp at h
            · rw [check_miss_badkey st c a m t rec cluster hne hget hrec hcl hk]
              exact ⟨rfl, rfl⟩
  · intro hne hrec hmiss hmiss2
    have e1 := check_miss_norec st c a m t hne hmiss hrec
    rw [e1]
    have e2 := check_miss_norec st c a m t2 hne hmiss2 hrec
    exact ⟨rfl, rfl, by rw [e2], by rw [e2]⟩

/-- Witness for C7: two consecutive lookups of an unknown match identifier. -/
theorem C7_witness :
    ¬("k1" = "" ∨ "zz" = "") ∧ stPaid.match_ids "zz" = none ∧
    ((check_match_id stPaid [] "k1" "zz" 0).result = .recordNotFound ∧
     (check_match_id stPaid [] "k1" "zz" 0).counts.recordReads = 1 ∧
     (check_match_id stPaid ((check_match_id stPaid [] "k1" "zz" 0).cache) "k1" "zz"
        50).result = .recordNotFound ∧
     (check_match_id stPaid ((check_match_id stPaid [] "k1" "zz" 0).cache) "k1" "zz"
        50).counts.recordReads = 1) :=
  ⟨by decide, by decide,
    (C7_negatives_not_cached stPaid [] "k1" "zz" 0 50).2 (by decide) (by decide)
      (by decide) (by decide)⟩

/-- Claim C8 fails: the Redis key carries the literal prefix "match_id:", so
it differs from the claimed access-key + ":" + match-identifier format. -/
theorem C8_counterexample :
    get_cache_key "k1" "m1" ≠ "k1" ++ ":" ++ "m1" := by decide

/-- Every cache entry left behind by a call either keys the serialized record
under the computed cache key or was already present. -/
theorem check_cache_superset (st : Store) (c : Cache) (a m : String) (t : Time) :
    (check_match_id st c a m t).cache = c ∨
    ∃ rec, st.match_ids m = some rec ∧
      (check_match_id st c a m t).cache =
        cacheSetex c (get_cache_key a m) 3600 (serialize_match_id rec) t := by
  by_cases hne : a = "" ∨ m = ""
  · left; rw [check_empty_eq st c a m t hne]
  · cases hget : cacheGet c (get_cache_key a m) t with
    | some d =>
      cases hcl : (get_cluster_from_user st d.cluster_name).2 with
      | none => left; rw [check_hit_nocluster st c a m t d hne hget hcl]
      | some cluster =>
        by_cases hk : cluster.api_key = a
        · exact Or.inl (check_hit_found_parts st c a m t d cluster hne hget hcl hk).2.1
        · left; rw [check_hit_badkey st c a m t d cluster hne hget hcl hk]
    | none =>
      cases hrec : st.match_ids m with
      | none => left; rw [check_miss_norec st c a m t hne hget hrec]
      | some rec =>
        cases hcl : (get_cluster_from_user st rec.cluster_name).2 with
        | none => left; rw [check_miss_nocluster st c a m t rec hne hget hrec hcl]
        | some cluster =>
          by_cases hk : cluster.api_key = a
          · exact Or.inr ⟨rec, rfl,
              (check_miss_found_parts st c a m t rec cluster hne hget hrec hcl hk).2.1⟩
          · left; rw [check_miss_badkey st c a m t rec cluster hne hget hrec hcl hk]

/-- Claim C8 (amended): the cache key used for both Get and Set is the literal
prefix "match_id:" followed by the access key, the separator ":", and the
match identifier; any entry a call adds to the cache sits under that key. -/
theorem C8_cache_key (a m : String) (st : Store) (c : Cache) (t : Time) :
    get_cache_key a m = "match_id:" ++ a ++ ":" ++ m ∧
    ∀ e ∈ (check_match_id st c a m t).cache, e.1 = get_cache_key a m ∨ e ∈ c := by
  refine ⟨rfl, fun e he => ?_⟩
  rcases check_cache_superset st c a m t with hc | ⟨rec, -, hc⟩
  · right; rwa [hc] at he
  · rw [hc] at he
    unfold cacheSetex at he
    rcases List.mem_cons.mp he with h1 | h2
    · left; rw [h1]
    · right; exact List.mem_of_mem_filter h2

/-- Witness for C8 (amended): the entry written by a concrete miss-path call
sits under the computed cache key. -/
theorem C8_witness :
    (get_cache_key "k1" "m1", (3600 : Time), serialize_match_id recPaid) ∈
      (check_match_id stPaid [] "k1" "m1" 0).cache ∧
    ((get_cache_key "k1" "m1", (3600 : Time), serialize_match_id recPaid).1 =
        get_cache_key "k1" "m1" ∨
      (get_cache_key "k1" "m1", (3600 : Time), serialize_match_id recPaid) ∈
        ([] : Cache)) :=
  ⟨by decide, (C8_cache_key "k1" "m1" stPaid [] 0).2 _ (by decide)⟩

/-- Claim C9: a domain status (Paid Active, Trial Active or Expired) is
returned only when the policy resolved from the relevant cluster name (the
cached entry's on a hit, the record's on a miss) exists and stores exactly
the presented access key; on either path a missing or mismatching policy
yields Key Invalid / HTTP 404. -/
theorem C9_authorization (st : Store) (c : Cache) (a m : String) (t : Time) :
    (((check_match_id st c a m t).result = .paidActive ∨
      (check_match_id st c a m t).result = .trialActive ∨
      (check_match_id st c a m t).result = .expired) →
      ∃ cn cluster, (get_cluster_from_user st cn).2 = some cluster ∧
        cluster.api_key = a ∧
        ((∃ d, cacheGet c (get_cache_key a m) t = some d ∧ d.cluster_name = cn) ∨
         (cacheGet c (get_cache_key a m) t = none ∧
          ∃ rec, st.match_ids m = some rec ∧ rec.cluster_name = cn))) ∧
    (∀ d, ¬(a = "" ∨ m = "") → cacheGet c (get_cache_key a m) t = some d →
      ((get_cluster_from_user st d.cluster_name).2 = none ∨
       (∃ cl, (get_cluster_from_user st d.cluster_name).2 = some cl ∧ cl.api_key ≠ a)) →
      (check_match_id st c a m t).result = .keyInvalid ∧
      httpStatus (check_match_id st c a m t).result = 404) ∧
    (∀ rec, ¬(a = "" ∨ m = "") → cacheGet c (get_cache_key a m) t = none →
      st.match_ids m = some rec →
      ((get_cluster_from_user st rec.cluster_name).2 = none ∨
       (∃ cl, (get_cluster_from_user st rec.cluster_name).2 = some cl ∧ cl.api_key ≠ a)) →
      (check_match_id st c a m t).result = .keyInvalid ∧
      httpStatus (check_match_id st c a m t).result = 404) := by
  refine ⟨?_, ?_, ?_⟩
  · intro hres
    by_cases hne : a = "" ∨ m = ""
    · rw [check_empty_eq st c a m t hne] at hres
      simp at hres
    · cases hget : cacheGet c (get_cache_key a m) t with
      | some d =>
        cases hcl : (get_cluster_from_user st d.cluster_name).2 with
        | none =>
          rw [check_hit_nocluster st c a m t d hne hget hcl] at hres
          simp at hres
        | some cluster =>
          by_cases hk : cluster.api_key = a
          · exact ⟨d.cluster_name, cluster, hcl, hk, Or.inl ⟨d, rfl, rfl⟩⟩
          · rw [check_hit_badkey st c a m t d cluster hne hget hcl hk] at hres
            simp at hres
      | none =>
        cases hrec : st.match_ids m with
        | none =>
          rw [check_miss_norec st c a m t hne hget hrec] at hres
          simp at hres
        | some rec =>
          cases hcl : (get_cluster_from_user st rec.cluster_name).2 with
          | none =>
            rw [check_miss_nocluster st c a m t rec hne hget hrec hcl] at hres
            simp at hres
          | some cluster =>
            by_cases hk : cluster.api_key = a
            · exact ⟨rec.cluster_name, cluster, hcl, hk, Or.inr ⟨rfl, rec, rfl, rfl⟩⟩
            · rw [check_miss_badkey st c a m t rec cluster hne hget hrec hcl hk] at hres
              simp at hres
  · rintro d hne hhit (hcl | ⟨cl, hcl, hk⟩)
    · rw [check_hit_nocluster st c a m t d hne hhit hcl]
      exact ⟨rfl, rfl⟩
    · rw [check_hit_badkey st c a m t d cl hne hhit hcl hk]
      exact ⟨rfl, rfl⟩
  · rintro rec hne hmiss hrec (hcl | ⟨cl, hcl, hk⟩)
    · rw [check_miss_nocluster st c a m t rec hne hmiss hrec hcl]
      exact ⟨rfl, rfl⟩
    · rw [check_miss_badkey st c a m t rec cl hne hmiss hrec hcl hk]
      exact ⟨rfl, rfl⟩

/-- Witness for C9: a cache hit presented with a key that does not match the
cached entry's cluster policy yields Key Invalid / HTTP 404. -/
theorem C9_witness :
    cacheGet cWrong (get_cache_key "k9" "m1") 0 = some dStale ∧
    clPaid.api_key ≠ "k9" ∧
    ((check_match_id stPaid cWrong "k9" "m1" 0).result = .keyInvalid ∧
     httpStatus (check_match_id stPaid cWrong "k9" "m1" 0).result = 404) :=
  ⟨by decide, by decide,
    (C9_authorization stPaid cWrong "k9" "m1" 0).2.1 dStale (by decide) (by decide)
      (Or.inr ⟨clPaid, by decide, by decide⟩)⟩

/-- Claim C10: on a cache hit the returned status is recomputed from the
cached raw timestamps at the current time, so once now is at or past the
cached valid-until (or valid-until is absent) the call never returns a
positive status, even though the entry is still inside its TTL — the outcome
is Expired, or Key Invalid when the policy check fails. -/
theorem C10_hit_recompute (st : Store) (c : Cache) (a m : String) (t : Time)
    (d : CacheData)
    (hne : ¬(a = "" ∨ m = ""))
    (hhit : cacheGet c (get_cache_key a m) t = some d)
    (hstale : ∀ v, d.valid_till = some v → v ≤ t) :
    ((check_match_id st c a m t).result = .expired ∨
      (check_match_id st c a m t).result = .keyInvalid) ∧
    (check_match_id st c a m t).result ≠ .paidActive ∧
    (check_match_id st c a m t).result ≠ .trialActive := by
  have hact : (match d.valid_till with
      | some v => decide (t < v)
      | none => false) = false := by
    cases hv : d.valid_till with
    | none => rfl
    | some v =>
      simp only [decide_eq_false_iff_not, not_lt]
      exact hstale v hv
  unfold check_match_id
  rw [if_neg hne, hhit]
  cases hcl : (get_cluster_from_user st d.cluster_name).2 with
  | none => simp [hcl]
  | some cluster =>
    by_cases hk : cluster.api_key = a
    · simp [hcl, hk, hact]
    · simp [hcl, hk]

/-- Witness for C10: a still-cached entry whose valid-until lies in the past
is not trusted — the call does not return a positive status. -/
theorem C10_witness :
    ¬("k1" = "" ∨ "m1" = "") ∧
    cacheGet cStale (get_cache_key "k1" "m1") 200 = some dStale ∧
    (∀ v, dStale.valid_till = some v → v ≤ 200) ∧
    (((check_match_id stPaid cStale "k1" "m1" 200).result = .expired ∨
      (check_match_id stPaid cStale "k1" "m1" 200).result = .keyInvalid) ∧
     (check_match_id stPaid cStale "k1" "m1" 200).result ≠ .paidActive ∧
     (check_match_id stPaid cStale "k1" "m1" 200).result ≠ .trialActive) :=
  ⟨by decide, by decide, by decide,
    C10_hit_recompute stPaid cStale "k1" "m1" 200 dStale (by decide) (by decide)
      (by decide)⟩

end MatchIdChecker
